import Mathlib

/-!
Verification of `zerver/lib/queue.py` (Zulip's RabbitMQ queue client).

The Python module is shallowly embedded as pure Lean functions over explicit
state records.  Interaction with the pika broker library is modelled by

* a `trace : List BrokerOp` ghost field recording every request the client
  issues to the broker (connection attempts, queue declares, publishes,
  consumer subscriptions, acks and nacks), and
* small oracles placed in the state for the non-deterministic parts of the
  environment: `pubOutcomes` gives the outcome of each successive
  `basic_publish` call, and `rng` gives the successive values of
  `random.getrandbits(16)`.

Python exceptions are modelled as an `Option AMQPError` component of each
result; `none` means normal return, `some e` means the call raised `e`.
-/

namespace ZulipQueue

/-- Errors raised by the pika layer.  `connectionError` stands for
`pika.exceptions.AMQPConnectionError`; `channelError` stands for any other
exception raised by a broker operation or a consumer callback. -/
inductive AMQPError
  | connectionError
  | channelError
deriving DecidableEq, Repr

/-- Requests the client issues to the broker, recorded in a ghost trace.
`connect` records the `heartbeat_interval` taken from the client's
`rabbitmq_heartbeat` field at connection time; `basicConsume` records the
queue, an identity for the (wrapped) consumer callback, and the generated
consumer tag. -/
inductive BrokerOp
  | connect (heartbeat : Option Nat)
  | queueDeclare (queue : String) (durable : Bool)
  | basicPublish (routingKey : String) (body : String)
  | basicConsume (queue : String) (consumerId : Nat) (consumerTag : String)
deriving DecidableEq, Repr

/-- Number of publish requests in a trace. -/
def countPublishes (tr : List BrokerOp) : Nat :=
  tr.countP fun op => match op with
    | .basicPublish _ _ => true
    | _ => false

/-- Number of declare requests for a given queue name in a trace. -/
def countDeclares (q : String) (tr : List BrokerOp) : Nat :=
  tr.countP fun op => match op with
    | .queueDeclare q' _ => q' = q
    | _ => false

/-- Number of consumer subscriptions for a given consumer identity in a trace. -/
def countConsumes (cid : Nat) (tr : List BrokerOp) : Nat :=
  tr.countP fun op => match op with
    | .basicConsume _ cid' _ => cid' = cid
    | _ => false

/-- consumer tags: `"%s_%s" % (queue_name, str(random.getrandbits(16)))`,
with the drawn bits passed explicitly (they come from the state's `rng`
oracle). -/
def generate_ctag (queue_name : String) (bits : Nat) : String :=
  queue_name ++ "_" ++ toString bits

/-- State of a `SimpleQueueClient` (the blocking client).

`queues` is `self.queues : Set[str]` (a duplicate-free list);
`connectionOpen` is `none` when `self.connection is None` and `some b`
when a connection object exists with `is_open = b`; `channelSet` says
whether `self.channel is not None`; `consumers` is `self.consumers`,
mapping a queue name to the identities of its wrapped consumers;
`rabbitmq_heartbeat` is `self.rabbitmq_heartbeat`.  `pubOutcomes`,
`userCbRuns`, `reconnects` and `trace` are ghost instrumentation:
the basic_publish outcome oracle, the number of times a caller-supplied
`ensure_queue` callback ran, the number of `_reconnect` calls, and the
broker request trace. -/
structure SQC where
  queues : List String
  connectionOpen : Option Bool
  channelSet : Bool
  consumers : List (String × List Nat)
  rabbitmq_heartbeat : Option Nat
  pubOutcomes : List (Option AMQPError)
  userCbRuns : Nat
  reconnects : Nat
  trace : List BrokerOp
deriving Repr

namespace SimpleQueueClient

/-- Model of `SimpleQueueClient._connect`: builds a `BlockingConnection` with the
parameters of `_get_parameters` (whose `heartbeat_interval` is
`self.rabbitmq_heartbeat`) and opens a channel.  Connection establishment
itself is assumed to succeed. -/
def _connect (s : SQC) : SQC :=
  { s with connectionOpen := some true
           channelSet := true
           trace := s.trace ++ [.connect s.rabbitmq_heartbeat] }

/-- Model of `SimpleQueueClient._reconnect`: drops the connection and channel, clears
the declaration cache `self.queues`, and connects again.  (`reconnects` is a
ghost counter.) -/
def _reconnect (s : SQC) : SQC :=
  _connect { s with connectionOpen := none
                    channelSet := false
                    queues := []
                    reconnects := s.reconnects + 1 }

/-- The state mutations performed by `SimpleQueueClient.ensure_queue` before
it invokes its callback: if `self.connection is None or not
self.connection.is_open`, call `self._connect()` (note: not `_reconnect`);
then, if the queue name is not cached, issue a synchronous durable
`queue_declare` and add the name to the cache. -/
def ensureState (s : SQC) (queue_name : String) : SQC :=
  let s := if s.connectionOpen = some true then s else _connect s
  if queue_name ∈ s.queues then s
  else { s with trace := s.trace ++ [.queueDeclare queue_name true]
                queues := queue_name :: s.queues }

/-- Model of `SimpleQueueClient.ensure_queue`: ensure a live connection and a declared
queue, then call the callback with no arguments. -/
def ensure_queue (s : SQC) (queue_name : String)
    (callback : SQC → SQC × Option AMQPError) : SQC × Option AMQPError :=
  callback (ensureState s queue_name)

/-- Model of `channel.basic_publish` inside `do_publish`: records the publish request
and reports the outcome drawn from the `pubOutcomes` oracle.  (The
`statsd.incr` counter bump on success is outside the model.) -/
def basic_publish (s : SQC) (routing_key : String) (body : String) :
    SQC × Option AMQPError :=
  ({ s with trace := s.trace ++ [.basicPublish routing_key body]
            pubOutcomes := s.pubOutcomes.tail },
   s.pubOutcomes.headD none)

/-- Model of `SimpleQueueClient.publish`: `ensure_queue(queue_name, do_publish)`. -/
def publish (s : SQC) (queue_name : String) (body : String) :
    SQC × Option AMQPError :=
  ensure_queue s queue_name fun s1 => basic_publish s1 queue_name body

/-- Model of `SimpleQueueClient.json_publish`: try `publish`; on
`AMQPConnectionError`, log, `_reconnect()`, and `publish` once more with no
protection; any other exception, and any exception of the second attempt,
propagates.  `body` stands for the `ujson.dumps` serialization of the
payload. -/
def json_publish (s : SQC) (queue_name : String) (body : String) :
    SQC × Option AMQPError :=
  match publish s queue_name body with
  | (s1, none) => (s1, none)
  | (s1, some .connectionError) =>
      let s2 := _reconnect s1
      publish s2 queue_name body
  | (s1, some e) => (s1, some e)

/-- A state as produced by `SimpleQueueClient.__init__`: empty cache, empty
consumer registry, `rabbitmq_heartbeat = 0`, then `self._connect()`.  The
publish-outcome oracle is a parameter of the experiment. -/
def init_state (outcomes : List (Option AMQPError)) : SQC :=
  _connect { queues := []
             connectionOpen := none
             channelSet := false
             consumers := []
             rabbitmq_heartbeat := some 0
             pubOutcomes := outcomes
             userCbRuns := 0
             reconnects := 0
             trace := [] }

/-- An `ensure_queue` callback that only records that it ran (an opaque
caller-supplied action). -/
def cbCount : SQC → SQC × Option AMQPError :=
  fun s => ({ s with userCbRuns := s.userCbRuns + 1 }, none)

/-- Runs `n` successive `ensure_queue` calls for the same queue name, each with an
opaque callback. -/
def ensureQueueCalls (s : SQC) (queue_name : String) : Nat → SQC
  | 0 => s
  | n + 1 => ensureQueueCalls ((ensure_queue s queue_name cbCount).1) queue_name n

end SimpleQueueClient

/-- Callbacks handed to `TornadoQueueClient.ensure_queue`.  `consume q cid`
is the closure `lambda: self.channel.basic_consume(consumer, queue=q,
consumer_tag=self._generate_ctag(q))` used when (re)registering consumer
`cid`; `user i` is an opaque caller-supplied callback identified by `i`. -/
inductive TCallback
  | consume (queue : String) (consumerId : Nat)
  | user (id : Nat)
deriving DecidableEq, Repr

/-- Entries of `TornadoQueueClient._on_open_cbs`: either the closure
`lambda: self.ensure_queue(queue_name, callback)` deferred by
`ensure_queue` while not yet connected, or an `on_open_cb` argument passed
to `_connect`. -/
inductive OnOpenCb
  | ensureQueue (queue : String) (cb : TCallback)
  | user (id : Nat)
deriving DecidableEq, Repr

/-- State of a `TornadoQueueClient`.  `connected` says whether
`self.connection is not None` (a connection object exists, possibly still
opening); `channelSet` says whether `self.channel is not None`;
`pendingDeclares` holds the asynchronous `queue_declare` requests whose
`finish` completion callback has not yet fired, in issue order; `rng` is
the oracle for `random.getrandbits(16)`; `userCbRuns` records the ids of
opaque callbacks that have run; `trace` is the broker request trace. -/
structure TQC where
  queues : List String
  connected : Bool
  channelSet : Bool
  consumers : List (String × List Nat)
  rabbitmq_heartbeat : Option Nat
  on_open_cbs : List OnOpenCb
  pendingDeclares : List (String × TCallback)
  rng : List Nat
  userCbRuns : List Nat
  trace : List BrokerOp
deriving Repr

namespace TornadoQueueClient

/-- Model of `TornadoQueueClient.ready`: `self.channel is not None`. -/
def ready (s : TQC) : Bool :=
  s.channelSet

/-- Run a `TCallback`.  The consume closure calls
`channel.basic_consume(consumer, queue, consumer_tag=_generate_ctag(queue))`,
drawing the tag's random bits from the `rng` oracle; an opaque user
callback just records its run. -/
def runTCallback (s : TQC) (cb : TCallback) : TQC :=
  match cb with
  | .consume q cid =>
      { s with trace := s.trace ++ [.basicConsume q cid (generate_ctag q (s.rng.headD 0))]
               rng := s.rng.tail }
  | .user i => { s with userCbRuns := s.userCbRuns ++ [i] }

/-- Model of `TornadoQueueClient.ensure_queue`: if the name is cached, run the
callback at once; otherwise, if no channel is open yet, defer the whole
call into `_on_open_cbs`; otherwise issue an asynchronous durable
`queue_declare` whose `finish` completion will cache the name and run the
callback. -/
def ensure_queue (s : TQC) (queue_name : String) (callback : TCallback) : TQC :=
  if queue_name ∈ s.queues then runTCallback s callback
  else if ¬ ready s then
    { s with on_open_cbs := s.on_open_cbs ++ [.ensureQueue queue_name callback] }
  else
    { s with trace := s.trace ++ [.queueDeclare queue_name true]
             pendingDeclares := s.pendingDeclares ++ [(queue_name, callback)] }

/-- Broker event: the `Queue.DeclareOk` reply for the oldest outstanding
`queue_declare` arrives and pika invokes its `finish` callback, which adds
the queue name to the cache and runs the deferred callback. -/
def handleDeclareOk (s : TQC) : TQC :=
  match s.pendingDeclares with
  | [] => s
  | (q, cb) :: rest =>
      runTCallback
        { s with pendingDeclares := rest
                 queues := if q ∈ s.queues then s.queues else q :: s.queues }
        cb

/-- Runs `n` successive `DeclareOk` completions. -/
def handleDeclareOks (s : TQC) : Nat → TQC
  | 0 => s
  | n + 1 => handleDeclareOks (handleDeclareOk s) n

/-- Model of `TornadoQueueClient._connect`: append the optional `on_open_cb`, then
create an `ExceptionFreeTornadoConnection` with `_get_parameters()` (its
`heartbeat_interval` is the current `rabbitmq_heartbeat`) and return
immediately; the channel opens only when the `_on_open`/`_on_channel_open`
callbacks later fire. -/
def _connect (s : TQC) (on_open_cb : Option Nat) : TQC :=
  let s : TQC := match on_open_cb with
                 | some i => { s with on_open_cbs := s.on_open_cbs ++ [.user i] }
                 | none => s
  { s with connected := true
           trace := s.trace ++ [.connect s.rabbitmq_heartbeat] }

/-- Model of `TornadoQueueClient._reconnect`: drop connection and channel, clear the
declaration cache, and `_connect()` (asynchronously, with no
`on_open_cb`). -/
def _reconnect (s : TQC) : TQC :=
  _connect { s with connected := false
                    channelSet := false
                    queues := [] } none

/-- Model of `TornadoQueueClient._reconnect_consumer_callback`: re-subscribe one
saved consumer through `ensure_queue` with a fresh consumer tag. -/
def _reconnect_consumer_callback (s : TQC) (queue : String) (consumer : Nat) : TQC :=
  ensure_queue s queue (.consume queue consumer)

/-- Model of `TornadoQueueClient._reconnect_consumer_callbacks`: replay every saved
consumer of every queue. -/
def _reconnect_consumer_callbacks (s : TQC) : TQC :=
  s.consumers.foldl
    (fun acc qc => qc.2.foldl (fun acc2 c => _reconnect_consumer_callback acc2 qc.1 c) acc)
    s

/-- Run one entry of `_on_open_cbs`. -/
def runOnOpenCb (s : TQC) (cb : OnOpenCb) : TQC :=
  match cb with
  | .ensureQueue q c => ensure_queue s q c
  | .user i => { s with userCbRuns := s.userCbRuns ++ [i] }

/-- Model of `TornadoQueueClient._on_channel_open` (reached via `_on_open` once the
connection and then the channel are open): store the channel, run every
deferred `_on_open_cbs` entry in order (the source does not clear the
list), then replay every registered consumer. -/
def _on_channel_open (s : TQC) : TQC :=
  _reconnect_consumer_callbacks (s.on_open_cbs.foldl runOnOpenCb { s with channelSet := true })

/-- Model of `TornadoQueueClient.__init__`: `super().__init__()` sets an empty cache
and registry and `rabbitmq_heartbeat = 0` and then calls `self._connect()`
(dynamically the Tornado `_connect`, so the first connection is opened with
the heartbeat still 0); only afterwards is `rabbitmq_heartbeat` set to
`None` and `_on_open_cbs` initialized. -/
def init_state (rng : List Nat) : TQC :=
  let s : TQC :=
    { queues := []
      connected := false
      channelSet := false
      consumers := []
      rabbitmq_heartbeat := some 0
      on_open_cbs := []
      pendingDeclares := []
      rng := rng
      userCbRuns := []
      trace := [] }
  let s := _connect s none
  { s with rabbitmq_heartbeat := none, on_open_cbs := [] }

end TornadoQueueClient

/-! ### Consumer acknowledgement wrappers (channel level) -/

/-- Acknowledgement operations a wrapped consumer performs on its channel. -/
inductive ChOp
  | ack (deliveryTag : Nat)
  | nack (deliveryTag : Nat)
deriving DecidableEq, Repr

/-- The `Basic.Deliver` method frame of a delivery (only the delivery tag
matters here). -/
structure Deliver where
  delivery_tag : Nat
deriving DecidableEq, Repr

/-- A user consumer callback `(ch, method, properties, body)`: it may itself
perform channel operations and may raise.  `none` in the second component
means normal return; `some e` means it raised `e`. -/
def ConsumerFn : Type :=
  List ChOp → Deliver → String → List ChOp × Option AMQPError

/-- The `wrapped_consumer` built by `SimpleQueueClient.register_consumer`:
`try: consumer(...); ch.basic_ack(delivery_tag=method.delivery_tag)`
`except Exception as e: ch.basic_nack(delivery_tag=method.delivery_tag); raise e`. -/
def SimpleQueueClient.wrapped_consumer (consumer : ConsumerFn) (ch : List ChOp)
    (method : Deliver) (body : String) : List ChOp × Option AMQPError :=
  match consumer ch method body with
  | (ch1, none) => (ch1 ++ [.ack method.delivery_tag], none)
  | (ch1, some e) => (ch1 ++ [.nack method.delivery_tag], some e)

/-- The `wrapped_consumer` built by `TornadoQueueClient.register_consumer`:
`consumer(...)` then `ch.basic_ack(delivery_tag=method.delivery_tag)` with
no `try`/`except`: a raising consumer propagates before the ack runs. -/
def TornadoQueueClient.wrapped_consumer (consumer : ConsumerFn) (ch : List ChOp)
    (method : Deliver) (body : String) : List ChOp × Option AMQPError :=
  match consumer ch method body with
  | (ch1, none) => (ch1 ++ [.ack method.delivery_tag], none)
  | (ch1, some e) => (ch1, some e)

/-! ### Drain operation -/

/-- A broker queue as the channel sees it: `ready` holds the deliverable
messages in FIFO order as `(delivery_tag, body)` pairs, `unacked` the
fetched-but-unacknowledged ones. -/
structure BQueue where
  ready : List (Nat × String)
  unacked : List (Nat × String)
deriving DecidableEq, Repr

/-- Model of `channel.basic_ack(tag)`: settle the unacknowledged message with that
delivery tag. -/
def basic_ack (bq : BQueue) (tag : Nat) : BQueue :=
  { bq with unacked := bq.unacked.filter fun m => m.1 ≠ tag }

/-- The `while True` loop of `SimpleQueueClient.drain_queue` (with
`json=False`), recursing over the queue's ready list:
`(meta, _, message) = channel.basic_get(queue_name)` fetches the head into
the unacked set; `if not message: break` stops both when the queue is empty
(`message is None`) and — Python truthiness — when the fetched body is the
empty string, in which case the fetched message is left unacknowledged;
otherwise `basic_ack(meta.delivery_tag)` and append the body to the
result. -/
def drain_loop : List (Nat × String) → List (Nat × String) → List String →
    BQueue × List String
  | [], unacked, messages => (⟨[], unacked⟩, messages)
  | (tag, body) :: rest, unacked, messages =>
      let fetched : BQueue := ⟨rest, unacked ++ [(tag, body)]⟩
      if body = "" then (fetched, messages)
      else drain_loop rest (basic_ack fetched tag).unacked (messages ++ [body])

/-- Model of `SimpleQueueClient.drain_queue` with `json=False`, at the channel level:
returns the final broker-queue state and the accumulated messages.  (The
surrounding `ensure_queue` call — connection liveness and declare — is
modelled separately by `SimpleQueueClient.ensure_queue` and touches only
client state, not the broker queue.) -/
def drain_queue (bq : BQueue) : BQueue × List String :=
  drain_loop bq.ready bq.unacked []

/-! ### Module-level functions -/

def MAX_REQUEST_RETRIES : Nat := 3

/-- A retry-envelope event: only its `failed_tries` key is interpreted by
`retry_event`; `none` means the key is absent. -/
structure Event where
  failed_tries : Option Nat
deriving DecidableEq, Repr

/-- stand-in for `ujson.dumps` on an `Event` (the claims never inspect the
serialized text, only that the updated event is what gets republished). -/
def ujson_dumps (e : Event) : String :=
  "failed_tries=" ++ toString (e.failed_tries.getD 0)

/-- Which non-broker path `queue_json_publish` took. -/
inductive FallbackPath
  | processorRun
  | workerConsumed
deriving DecidableEq, Repr

/-- Model of `queue_json_publish(queue_name, event, processor)`: under the module
lock, if `settings.USING_RABBITMQ` then `get_queue_client().json_publish`
(whose exception, if any, propagates); else if a processor was supplied,
run it; else hand the event to the worker's `consume_wrapper`.  The client
state is threaded explicitly in place of the process-global
`queue_client`. -/
def queue_json_publish (usingRabbitmq : Bool) (hasProcessor : Bool) (s : SQC)
    (queue_name : String) (body : String) :
    SQC × Option AMQPError × Option FallbackPath :=
  if usingRabbitmq then
    let (s1, e) := SimpleQueueClient.json_publish s queue_name body
    (s1, e, none)
  else if hasProcessor then (s, none, some .processorRun)
  else (s, none, some .workerConsumed)

/-- Terminal outcome of `retry_event`. -/
inductive RetryAction
  | republished
  | failureProcessed
deriving DecidableEq, Repr

/-- Model of `retry_event(queue_name, event, failure_processor)`: initialize
`event['failed_tries']` to 0 when absent, increment it by 1; if it now
exceeds `MAX_REQUEST_RETRIES` call `failure_processor(event)`, else
republish the updated event through
`queue_json_publish(queue_name, event, lambda x: None)` (note: the no-op
lambda is the non-broker fallback processor, and nothing catches an
exception from the publish path).  Returns the updated client state, the
new `failed_tries` value, the action taken, and the propagated error if
any. -/
def retry_event (usingRabbitmq : Bool) (s : SQC) (queue_name : String)
    (event : Event) : SQC × Nat × RetryAction × Option AMQPError :=
  let ft := event.failed_tries.getD 0 + 1
  if ft > MAX_REQUEST_RETRIES then (s, ft, .failureProcessed, none)
  else
    let (s1, e, _) :=
      queue_json_publish usingRabbitmq true s queue_name
        (ujson_dumps { failed_tries := some ft })
    (s1, ft, .republished, e)

/-- The consumer registry flattened to `(queue, consumer)` pairs in
iteration order. -/
def flattenConsumers : List (String × List Nat) → List (String × Nat)
  | [] => []
  | (q, cs) :: rest => cs.map (fun c => (q, c)) ++ flattenConsumers rest

/-- The declare requests a replay issues: one per registry entry. -/
def declareOps (P : List (String × Nat)) : List BrokerOp :=
  P.map fun qc => .queueDeclare qc.1 true

/-- The pending-declare entries a replay leaves behind before the
`DeclareOk` completions arrive. -/
def pendingOf (P : List (String × Nat)) : List (String × TCallback) :=
  P.map fun qc => (qc.1, .consume qc.1 qc.2)

/-- The subscriptions a replay issues once the declares complete, tagged
with the successive random draws. -/
def consumeOps (P : List (String × Nat)) (rng : List Nat) : List BrokerOp :=
  List.zipWith (fun qc b => .basicConsume qc.1 qc.2 (generate_ctag qc.1 b)) P rng

/-- The state of an event-driven client right after `_reconnect` followed by
`_on_channel_open` (with no deferred open-callbacks): connected with an open
channel, empty declaration cache, one durable declare issued per registry
entry and the matching `finish` completions still pending. -/
def replayedState (t : TQC) : TQC :=
  { t with connected := true
           channelSet := true
           queues := []
           trace := t.trace ++ [.connect t.rabbitmq_heartbeat]
             ++ declareOps (flattenConsumers t.consumers)
           pendingDeclares := t.pendingDeclares ++ pendingOf (flattenConsumers t.consumers) }

/-! ### Sample states used by counterexamples and witnesses -/

/-- A blocking client whose connection object exists but is no longer open,
with one queue name cached from the previous connection. -/
def deadSQC : SQC :=
  { queues := ["old"]
    connectionOpen := some false
    channelSet := true
    consumers := []
    rabbitmq_heartbeat := some 0
    pubOutcomes := []
    userCbRuns := 0
    reconnects := 0
    trace := [] }

/-- A healthy blocking client with one registered consumer. -/
def consumerSQC : SQC :=
  { queues := ["q"]
    connectionOpen := some true
    channelSet := true
    consumers := [("q", [7])]
    rabbitmq_heartbeat := some 0
    pubOutcomes := []
    userCbRuns := 0
    reconnects := 0
    trace := [] }

/-- A blocking client whose next two `basic_publish` calls will raise
`AMQPConnectionError`. -/
def pubFailSQC : SQC :=
  SimpleQueueClient.init_state [some .connectionError, some .connectionError]

/-- A fully connected event-driven client with one registered consumer and
no deferred work. -/
def readyTQC : TQC :=
  { queues := []
    connected := true
    channelSet := true
    consumers := [("q", [7])]
    rabbitmq_heartbeat := none
    on_open_cbs := []
    pendingDeclares := []
    rng := [11, 22]
    userCbRuns := []
    trace := [] }

end ZulipQueue

/-! ## Lemmas -/

namespace ZulipQueue

theorem countPublishes_append (a b : List BrokerOp) :
    countPublishes (a ++ b) = countPublishes a + countPublishes b := by
  simp [countPublishes, List.countP_append]

theorem countPublishes_connect_op (h : Option Nat) :
    countPublishes [.connect h] = 0 := rfl

theorem countPublishes_declare_op (q : String) (d : Bool) :
    countPublishes [.queueDeclare q d] = 0 := rfl

theorem countPublishes_publish_op (q b : String) :
    countPublishes [.basicPublish q b] = 1 := rfl

theorem countDeclares_append (q : String) (a b : List BrokerOp) :
    countDeclares q (a ++ b) = countDeclares q a + countDeclares q b := by
  simp [countDeclares, List.countP_append]

theorem countDeclares_declare_self (q : String) :
    countDeclares q [.queueDeclare q true] = 1 := by
  simp [countDeclares]

theorem countConsumes_append (c : Nat) (a b : List BrokerOp) :
    countConsumes c (a ++ b) = countConsumes c a + countConsumes c b := by
  simp [countConsumes, List.countP_append]

namespace SimpleQueueClient

theorem ensureState_pubOutcomes (s : SQC) (q : String) :
    (ensureState s q).pubOutcomes = s.pubOutcomes := by
  simp only [ensureState, _connect]
  split <;> split <;> rfl

theorem ensureState_reconnects (s : SQC) (q : String) :
    (ensureState s q).reconnects = s.reconnects := by
  simp only [ensureState, _connect]
  split <;> split <;> rfl

theorem ensureState_userCbRuns (s : SQC) (q : String) :
    (ensureState s q).userCbRuns = s.userCbRuns := by
  simp only [ensureState, _connect]
  split <;> split <;> rfl

theorem ensureState_consumers (s : SQC) (q : String) :
    (ensureState s q).consumers = s.consumers := by
  simp only [ensureState, _connect]
  split <;> split <;> rfl

theorem ensureState_connectionOpen (s : SQC) (q : String) :
    (ensureState s q).connectionOpen = some true := by
  simp only [ensureState, _connect]
  split <;> split <;> simp_all

theorem ensureState_queues (s : SQC) (q : String) :
    (ensureState s q).queues = if q ∈ s.queues then s.queues else q :: s.queues := by
  simp only [ensureState, _connect]
  split <;> split <;> simp_all

theorem ensureState_countPublishes (s : SQC) (q : String) :
    countPublishes (ensureState s q).trace = countPublishes s.trace := by
  simp only [ensureState, _connect]
  split <;> split <;> simp [countPublishes_append, countPublishes]

theorem publish_eq (s : SQC) (q b : String) :
    publish s q b =
      ({ ensureState s q with
           trace := (ensureState s q).trace ++ [.basicPublish q b]
           pubOutcomes := s.pubOutcomes.tail },
       s.pubOutcomes.headD none) := by
  simp [publish, ensure_queue, basic_publish, ensureState_pubOutcomes]

theorem _reconnect_queues (s : SQC) : (_reconnect s).queues = [] := rfl

theorem _reconnect_consumers (s : SQC) : (_reconnect s).consumers = s.consumers := rfl

theorem _reconnect_pubOutcomes (s : SQC) : (_reconnect s).pubOutcomes = s.pubOutcomes := rfl

theorem _reconnect_reconnects (s : SQC) : (_reconnect s).reconnects = s.reconnects + 1 := rfl

theorem _reconnect_trace (s : SQC) :
    (_reconnect s).trace = s.trace ++ [.connect s.rabbitmq_heartbeat] := rfl

theorem json_publish_ok (s : SQC) (q b : String)
    (h : s.pubOutcomes.headD none = none) :
    json_publish s q b = ((publish s q b).1, none) := by
  rw [json_publish.eq_def, publish_eq, h]

theorem json_publish_conn (s : SQC) (q b : String)
    (h : s.pubOutcomes.headD none = some .connectionError) :
    json_publish s q b = publish (_reconnect (publish s q b).1) q b := by
  rw [json_publish.eq_def, publish_eq, h]

theorem json_publish_other (s : SQC) (q b : String)
    (h : s.pubOutcomes.headD none = some .channelError) :
    json_publish s q b = ((publish s q b).1, some .channelError) := by
  rw [json_publish.eq_def, publish_eq, h]

theorem publish_countPublishes (s : SQC) (q b : String) :
    countPublishes (publish s q b).1.trace = countPublishes s.trace + 1 := by
  show countPublishes ((ensureState s q).trace ++ [.basicPublish q b])
         = countPublishes s.trace + 1
  rw [countPublishes_append, ensureState_countPublishes, countPublishes_publish_op]

theorem publish_reconnects (s : SQC) (q b : String) :
    (publish s q b).1.reconnects = s.reconnects := by
  rw [publish_eq]
  simpa using ensureState_reconnects s q

theorem publish_pubOutcomes (s : SQC) (q b : String) :
    (publish s q b).1.pubOutcomes = s.pubOutcomes.tail := by
  rw [publish_eq]

/-- On a first-attempt connection error, `json_publish` performs exactly one
more publish attempt after exactly one `_reconnect`, and returns the second
attempt's outcome. -/
theorem json_publish_conn_spec (s : SQC) (q b : String)
    (h : s.pubOutcomes.headD none = some .connectionError) :
    countPublishes (json_publish s q b).1.trace = countPublishes s.trace + 2 ∧
    (json_publish s q b).1.reconnects = s.reconnects + 1 ∧
    (json_publish s q b).2 = s.pubOutcomes.tail.headD none := by
  rw [json_publish_conn s q b h]
  refine ⟨?_, ?_, ?_⟩
  · rw [publish_countPublishes, _reconnect_trace, countPublishes_append,
        countPublishes_connect_op, publish_countPublishes]
  · rw [publish_reconnects, _reconnect_reconnects, publish_reconnects]
  · rw [publish_eq (_reconnect (publish s q b).1) q b]
    rw [show (_reconnect (publish s q b).1).pubOutcomes = (publish s q b).1.pubOutcomes
        from rfl]
    rw [publish_pubOutcomes]

/-- In every execution, `json_publish` makes at most two publish attempts
and at most one reconnect. -/
theorem json_publish_bound (s : SQC) (q b : String) :
    countPublishes (json_publish s q b).1.trace ≤ countPublishes s.trace + 2 ∧
    (json_publish s q b).1.reconnects ≤ s.reconnects + 1 := by
  rcases hh : s.pubOutcomes.headD none with _ | e
  · rw [json_publish_ok s q b hh]
    constructor
    · rw [publish_countPublishes]; omega
    · rw [publish_reconnects]; omega
  · cases e
    · have h2 := json_publish_conn_spec s q b hh
      constructor
      · rw [h2.1]
      · rw [h2.2.1]
    · rw [json_publish_other s q b hh]
      constructor
      · rw [publish_countPublishes]; omega
      · rw [publish_reconnects]; omega

theorem ensureState_cached (s : SQC) (q : String)
    (h1 : s.connectionOpen = some true) (h2 : q ∈ s.queues) :
    ensureState s q = s := by
  simp [ensureState, h1, h2]

theorem ensureState_uncached (s : SQC) (q : String)
    (h1 : s.connectionOpen = some true) (h2 : q ∉ s.queues) :
    ensureState s q
      = { s with trace := s.trace ++ [.queueDeclare q true]
                 queues := q :: s.queues } := by
  simp [ensureState, h1, h2]

theorem ensureQueueCalls_cached (n : Nat) : ∀ (s : SQC) (q : String),
    s.connectionOpen = some true → q ∈ s.queues →
    ensureQueueCalls s q n = { s with userCbRuns := s.userCbRuns + n } := by
  induction n with
  | zero =>
      intro s q h1 h2
      cases s
      simp [ensureQueueCalls]
  | succ n ih =>
      intro s q h1 h2
      have hst : (ensure_queue s q cbCount).1
          = { s with userCbRuns := s.userCbRuns + 1 } := by
        show (cbCount (ensureState s q)).1 = _
        rw [ensureState_cached s q h1 h2]
        rfl
      have hrec := ih { s with userCbRuns := s.userCbRuns + 1 } q h1 h2
      show ensureQueueCalls (ensure_queue s q cbCount).1 q n = _
      rw [hst, hrec]
      cases s
      simp
      omega

end SimpleQueueClient

namespace TornadoQueueClient

theorem ensure_queue_declare (t : TQC) (q : String) (cb : TCallback)
    (h1 : q ∉ t.queues) (h2 : t.channelSet = true) :
    ensure_queue t q cb
      = { t with trace := t.trace ++ [.queueDeclare q true]
                 pendingDeclares := t.pendingDeclares ++ [(q, cb)] } := by
  simp [ensure_queue, ready, h1, h2]

theorem handleDeclareOk_cons (u : TQC) (q : String) (cb : TCallback)
    (rest : List (String × TCallback))
    (h : u.pendingDeclares = (q, cb) :: rest) :
    handleDeclareOk u
      = runTCallback
          { u with pendingDeclares := rest
                   queues := if q ∈ u.queues then u.queues else q :: u.queues }
          cb := by
  simp only [handleDeclareOk]
  rw [h]

theorem replay_inner (q : String) (ids : List Nat) : ∀ u : TQC,
    u.channelSet = true → u.queues = [] →
    ids.foldl (fun acc2 c => _reconnect_consumer_callback acc2 q c) u
      = { u with trace := u.trace ++ declareOps (ids.map fun c => (q, c))
                 pendingDeclares := u.pendingDeclares ++ pendingOf (ids.map fun c => (q, c)) } := by
  induction ids with
  | nil =>
      intro u h1 h2
      cases u
      simp [declareOps, pendingOf]
  | cons c cs ih =>
      intro u h1 h2
      rw [List.foldl_cons]
      have hstep : _reconnect_consumer_callback u q c
          = { u with trace := u.trace ++ [.queueDeclare q true]
                     pendingDeclares := u.pendingDeclares ++ [(q, .consume q c)] } := by
        unfold _reconnect_consumer_callback
        exact ensure_queue_declare u q _ (by simp [h2]) h1
      have hrec := ih
          { u with trace := u.trace ++ [.queueDeclare q true]
                   pendingDeclares := u.pendingDeclares ++ [(q, TCallback.consume q c)] }
          h1 h2
      rw [hstep, hrec]
      cases u
      simp [declareOps, pendingOf]

theorem replay_fold (cs : List (String × List Nat)) : ∀ u : TQC,
    u.channelSet = true → u.queues = [] →
    cs.foldl
        (fun acc qc => qc.2.foldl (fun acc2 c => _reconnect_consumer_callback acc2 qc.1 c) acc)
        u
      = { u with trace := u.trace ++ declareOps (flattenConsumers cs)
                 pendingDeclares := u.pendingDeclares ++ pendingOf (flattenConsumers cs) } := by
  induction cs with
  | nil =>
      intro u h1 h2
      cases u
      simp [flattenConsumers, declareOps, pendingOf]
  | cons qc rest ih =>
      intro u h1 h2
      obtain ⟨q, ids⟩ := qc
      rw [List.foldl_cons]
      have hin := replay_inner q ids u h1 h2
      have hrec := ih
          { u with trace := u.trace ++ declareOps (ids.map fun c => (q, c))
                   pendingDeclares := u.pendingDeclares ++ pendingOf (ids.map fun c => (q, c)) }
          h1 h2
      show rest.foldl _ (ids.foldl (fun acc2 c => _reconnect_consumer_callback acc2 q c) u) = _
      rw [hin, hrec]
      cases u
      simp [flattenConsumers, declareOps, pendingOf, List.map_append]

theorem _reconnect_consumer_callbacks_spec (u : TQC)
    (h1 : u.channelSet = true) (h2 : u.queues = []) :
    _reconnect_consumer_callbacks u
      = { u with trace := u.trace ++ declareOps (flattenConsumers u.consumers)
                 pendingDeclares := u.pendingDeclares ++ pendingOf (flattenConsumers u.consumers) } := by
  unfold _reconnect_consumer_callbacks
  exact replay_fold u.consumers u h1 h2

theorem handleDeclareOks_pendingOf (P : List (String × Nat)) : ∀ u : TQC,
    u.pendingDeclares = pendingOf P → P.length ≤ u.rng.length →
    (handleDeclareOks u P.length).consumers = u.consumers ∧
    (handleDeclareOks u P.length).trace = u.trace ++ consumeOps P u.rng ∧
    (handleDeclareOks u P.length).pendingDeclares = [] ∧
    (handleDeclareOks u P.length).rng = u.rng.drop P.length := by
  induction P with
  | nil =>
      intro u h1 h2
      refine ⟨rfl, ?_, h1, rfl⟩
      show u.trace = u.trace ++ consumeOps [] u.rng
      simp [consumeOps]
  | cons p P ih =>
      intro u h1 h2
      obtain ⟨q, c⟩ := p
      cases hr : u.rng with
      | nil =>
          rw [hr] at h2
          simp at h2
      | cons b r =>
          have hstep : handleDeclareOk u
              = { u with pendingDeclares := pendingOf P
                         queues := if q ∈ u.queues then u.queues else q :: u.queues
                         trace := u.trace ++ [.basicConsume q c (generate_ctag q b)]
                         rng := r } := by
            rw [handleDeclareOk_cons u q (TCallback.consume q c) (pendingOf P)
                (by simpa [pendingOf] using h1)]
            simp [runTCallback, hr]
          have hlen : P.length ≤ r.length := by
            rw [hr] at h2
            simpa using h2
          have hrec := ih
              { u with pendingDeclares := pendingOf P
                       queues := if q ∈ u.queues then u.queues else q :: u.queues
                       trace := u.trace ++ [.basicConsume q c (generate_ctag q b)]
                       rng := r }
              rfl hlen
          refine ⟨?_, ?_, ?_, ?_⟩
          · rw [show handleDeclareOks u (((q, c) :: P).length)
                  = handleDeclareOks (handleDeclareOk u) P.length from rfl, hstep]
            exact hrec.1
          · rw [show handleDeclareOks u (((q, c) :: P).length)
                  = handleDeclareOks (handleDeclareOk u) P.length from rfl, hstep,
                hrec.2.1]
            show (u.trace ++ [.basicConsume q c (generate_ctag q b)])
                ++ consumeOps P r = u.trace ++ consumeOps ((q, c) :: P) (b :: r)
            simp [consumeOps, List.append_assoc]
          · rw [show handleDeclareOks u (((q, c) :: P).length)
                  = handleDeclareOks (handleDeclareOk u) P.length from rfl, hstep]
            exact hrec.2.2.1
          · rw [show handleDeclareOks u (((q, c) :: P).length)
                  = handleDeclareOks (handleDeclareOk u) P.length from rfl, hstep,
                hrec.2.2.2]
            rfl

theorem _on_channel_open_empty (t : TQC) (h : t.on_open_cbs = []) :
    _on_channel_open t
      = _reconnect_consumer_callbacks { t with channelSet := true } := by
  unfold _on_channel_open
  rw [h]
  rfl

/-- After a forced reconnect of the event-driven client with no deferred
work, once the channel reopens the registry has been fully replayed: the
registry is unchanged, one declare went out per registry entry, and — once
all the declare completions have fired — one `basic_consume` went out per
registry entry, in registry order, each tagged with the next 16-bit random
draw. -/
theorem replay_after_reconnect (t : TQC)
    (h1 : t.on_open_cbs = []) (h2 : t.pendingDeclares = [])
    (h3 : (flattenConsumers t.consumers).length ≤ t.rng.length) :
    (handleDeclareOks (_on_channel_open (_reconnect t))
        (flattenConsumers t.consumers).length).consumers = t.consumers ∧
    (handleDeclareOks (_on_channel_open (_reconnect t))
        (flattenConsumers t.consumers).length).trace
      = t.trace ++ [.connect t.rabbitmq_heartbeat]
          ++ declareOps (flattenConsumers t.consumers)
          ++ consumeOps (flattenConsumers t.consumers) t.rng := by
  rw [_on_channel_open_empty (_reconnect t) h1,
      _reconnect_consumer_callbacks_spec _ rfl rfl]
  constructor
  · refine (handleDeclareOks_pendingOf (flattenConsumers t.consumers) _ ?_ ?_).1
    · show t.pendingDeclares ++ pendingOf (flattenConsumers t.consumers)
          = pendingOf (flattenConsumers t.consumers)
      rw [h2]
      rfl
    · exact h3
  · refine ((handleDeclareOks_pendingOf (flattenConsumers t.consumers) _ ?_ ?_).2.1).trans ?_
    · show t.pendingDeclares ++ pendingOf (flattenConsumers t.consumers)
          = pendingOf (flattenConsumers t.consumers)
      rw [h2]
      rfl
    · exact h3
    · rfl

end TornadoQueueClient

end ZulipQueue

/-! ## Claim theorems -/

namespace ZulipQueue

/-- A consumer callback that returns normally without touching the channel. -/
def okConsumer : ConsumerFn := fun c _ _ => (c, none)

/-- A consumer callback that raises without touching the channel. -/
def failingConsumer : ConsumerFn := fun c _ _ => (c, some .channelError)

/-- C1 (counterexample): a blocking client whose connection is dead and
whose cache still holds the name `"old"` declared on the previous
connection; `ensure_queue` re-establishes the connection (via `_connect`)
but `"old"` is still cached afterwards, so the cache is not emptied on this
transition away from Open. -/
theorem C1_counterexample :
    deadSQC.connectionOpen ≠ some true ∧
    (SimpleQueueClient.ensure_queue deadSQC "q" SimpleQueueClient.cbCount).1.connectionOpen
      = some true ∧
    "old" ∈ deadSQC.queues ∧
    "old" ∈ (SimpleQueueClient.ensure_queue deadSQC "q" SimpleQueueClient.cbCount).1.queues := by
  decide

/-- C1 (amended): `_reconnect` — on either client — does empty the
declaration cache synchronously; but `ensure_queue`'s liveness check calls
`_connect`, not `_reconnect`, so when it finds the connection dead and
re-establishes it, every previously cached name survives: the cache after
`ensure_queue` is exactly the old cache with the requested name added if it
was absent. -/
theorem C1_amended (s : SQC) (t : TQC) (q : String) :
    (SimpleQueueClient._reconnect s).queues = [] ∧
    (TornadoQueueClient._reconnect t).queues = [] ∧
    (SimpleQueueClient.ensureState s q).connectionOpen = some true ∧
    (SimpleQueueClient.ensureState s q).queues
      = if q ∈ s.queues then s.queues else q :: s.queues :=
  ⟨rfl, rfl, SimpleQueueClient.ensureState_connectionOpen s q,
   SimpleQueueClient.ensureState_queues s q⟩

/-- C3: `retry_event` always sets `failed_tries` to its previous value
(0 when absent) plus exactly 1, and with `MAX_REQUEST_RETRIES = 3` the
four successive calls starting from an event without the key produce
1, 2, 3 (each republished) and then 4 with the failure processor invoked
and no republish (the client state is untouched on that call). -/
theorem C3_retry_event_arithmetic :
    (∀ (u : Bool) (s : SQC) (q : String) (ev : Event),
        (retry_event u s q ev).2.1 = ev.failed_tries.getD 0 + 1) ∧
    (∀ (u : Bool) (s : SQC) (q : String),
        (retry_event u s q ⟨none⟩).2.1 = 1 ∧
        (retry_event u s q ⟨none⟩).2.2.1 = .republished ∧
        (retry_event u s q ⟨some 1⟩).2.1 = 2 ∧
        (retry_event u s q ⟨some 1⟩).2.2.1 = .republished ∧
        (retry_event u s q ⟨some 2⟩).2.1 = 3 ∧
        (retry_event u s q ⟨some 2⟩).2.2.1 = .republished ∧
        (retry_event u s q ⟨some 3⟩).2.1 = 4 ∧
        (retry_event u s q ⟨some 3⟩).2.2.1 = .failureProcessed ∧
        (retry_event u s q ⟨some 3⟩).1 = s) := by
  constructor
  · intro u s q ev
    simp only [retry_event]
    split <;> rfl
  · intro u s q
    exact ⟨rfl, rfl, rfl, rfl, rfl, rfl, rfl, rfl, rfl⟩

/-- C6: the blocking client's wrapped consumer positively acknowledges with
exactly the delivery's tag when the handler returns normally, and on a
handler exception negatively acknowledges with exactly that tag and
re-raises the original error. -/
theorem C6_blocking_wrapper (consumer : ConsumerFn) (ch ch1 : List ChOp)
    (m : Deliver) (body : String) :
    (consumer ch m body = (ch1, none) →
        SimpleQueueClient.wrapped_consumer consumer ch m body
          = (ch1 ++ [.ack m.delivery_tag], none)) ∧
    (∀ e, consumer ch m body = (ch1, some e) →
        SimpleQueueClient.wrapped_consumer consumer ch m body
          = (ch1 ++ [.nack m.delivery_tag], some e)) := by
  constructor
  · intro h
    unfold SimpleQueueClient.wrapped_consumer
    rw [h]
  · intro e h
    unfold SimpleQueueClient.wrapped_consumer
    rw [h]

theorem C6_witness :
    okConsumer [] ⟨5⟩ "m" = ([], none) ∧
    SimpleQueueClient.wrapped_consumer okConsumer [] ⟨5⟩ "m"
      = ([ChOp.ack 5], none) ∧
    failingConsumer [] ⟨5⟩ "m" = ([], some .channelError) ∧
    SimpleQueueClient.wrapped_consumer failingConsumer [] ⟨5⟩ "m"
      = ([ChOp.nack 5], some .channelError) :=
  ⟨rfl, (C6_blocking_wrapper okConsumer [] [] ⟨5⟩ "m").1 rfl, rfl,
   (C6_blocking_wrapper failingConsumer [] [] ⟨5⟩ "m").2 .channelError rfl⟩

/-- C7 (counterexample): on the event-driven wrapper, a handler that raises
for the delivery with tag 5 leads to no acknowledgement at all — the ack is
not issued when the handler raises, contradicting the claim that it is
issued unconditionally. -/
theorem C7_counterexample :
    TornadoQueueClient.wrapped_consumer failingConsumer [] ⟨5⟩ "m"
      = ([], some .channelError) ∧
    ChOp.ack 5 ∉ (TornadoQueueClient.wrapped_consumer failingConsumer [] ⟨5⟩ "m").1 := by
  decide

/-- C7 (amended): the event-driven wrapper catches no handler exception and
never issues a negative acknowledgement; it issues the positive
acknowledgement (with the delivery's tag) only when the handler returns
normally — when the handler raises, the exception propagates before the
ack, and no ack or nack is issued by the wrapper. -/
theorem C7_amended (consumer : ConsumerFn) (ch ch1 : List ChOp)
    (m : Deliver) (body : String) :
    (consumer ch m body = (ch1, none) →
        TornadoQueueClient.wrapped_consumer consumer ch m body
          = (ch1 ++ [.ack m.delivery_tag], none)) ∧
    (∀ e, consumer ch m body = (ch1, some e) →
        TornadoQueueClient.wrapped_consumer consumer ch m body = (ch1, some e)) ∧
    (∀ t, ChOp.nack t ∈ (TornadoQueueClient.wrapped_consumer consumer ch m body).1 →
        ChOp.nack t ∈ (consumer ch m body).1) := by
  refine ⟨?_, ?_, ?_⟩
  · intro h
    unfold TornadoQueueClient.wrapped_consumer
    rw [h]
  · intro e h
    unfold TornadoQueueClient.wrapped_consumer
    rw [h]
  · intro t
    unfold TornadoQueueClient.wrapped_consumer
    rcases hc : consumer ch m body with ⟨ch2, e2⟩
    cases e2 <;> simp

theorem C7_witness :
    okConsumer [] ⟨5⟩ "m" = ([], none) ∧
    TornadoQueueClient.wrapped_consumer okConsumer [] ⟨5⟩ "m"
      = ([ChOp.ack 5], none) ∧
    failingConsumer [] ⟨5⟩ "m" = ([], some .channelError) ∧
    TornadoQueueClient.wrapped_consumer failingConsumer [] ⟨5⟩ "m"
      = ([], some .channelError) :=
  ⟨rfl, (C7_amended okConsumer [] [] ⟨5⟩ "m").1 rfl, rfl,
   (C7_amended failingConsumer [] [] ⟨5⟩ "m").2.1 .channelError rfl⟩

/-- C9 (code bug): on a queue holding bodies `["a", "", "c"]`, `drain_queue`
returns only `["a"]`, leaves the empty-body message fetched but
unacknowledged and `"c"` still queued — Python's `if not message:` treats
an empty body like "no message", contradicting the docstring "Returns all
messages in the desired queue".  With non-empty bodies the claimed FIFO
drain-and-ack behavior holds, and draining an empty queue returns `[]`. -/
theorem C9_drain_queue_empty_body :
    drain_queue ⟨[(1, "a"), (2, ""), (3, "c")], []⟩
        = (⟨[(3, "c")], [(2, "")]⟩, ["a"]) ∧
    drain_queue ⟨[(1, "a"), (2, "b"), (3, "c")], []⟩
        = (⟨[], []⟩, ["a", "b", "c"]) ∧
    drain_queue ⟨[], []⟩ = (⟨[], []⟩, []) := by
  decide

/-- C2: when the first publish attempt of `json_publish` raises a
connection error, exactly one `_reconnect` and exactly one further publish
attempt happen, and the second attempt's outcome (error or success) is
returned to the caller; moreover in every execution `json_publish` makes at
most two publish attempts and at most one reconnect. -/
theorem C2_json_publish_bounded_retry (s : SQC) (q b : String)
    (h : s.pubOutcomes.headD none = some .connectionError) :
    countPublishes (SimpleQueueClient.json_publish s q b).1.trace
      = countPublishes s.trace + 2 ∧
    (SimpleQueueClient.json_publish s q b).1.reconnects = s.reconnects + 1 ∧
    (SimpleQueueClient.json_publish s q b).2 = s.pubOutcomes.tail.headD none ∧
    (∀ t : SQC,
        countPublishes (SimpleQueueClient.json_publish t q b).1.trace
          ≤ countPublishes t.trace + 2 ∧
        (SimpleQueueClient.json_publish t q b).1.reconnects ≤ t.reconnects + 1) := by
  obtain ⟨h1, h2, h3⟩ := SimpleQueueClient.json_publish_conn_spec s q b h
  exact ⟨h1, h2, h3, fun t => SimpleQueueClient.json_publish_bound t q b⟩

theorem C2_witness :
    pubFailSQC.pubOutcomes.headD none = some .connectionError ∧
    countPublishes (SimpleQueueClient.json_publish pubFailSQC "q" "x").1.trace
      = countPublishes pubFailSQC.trace + 2 ∧
    (SimpleQueueClient.json_publish pubFailSQC "q" "x").1.reconnects
      = pubFailSQC.reconnects + 1 ∧
    (SimpleQueueClient.json_publish pubFailSQC "q" "x").2
      = pubFailSQC.pubOutcomes.tail.headD none :=
  ⟨rfl, (C2_json_publish_bounded_retry pubFailSQC "q" "x" rfl).1,
   (C2_json_publish_bounded_retry pubFailSQC "q" "x" rfl).2.1,
   (C2_json_publish_bounded_retry pubFailSQC "q" "x" rfl).2.2.1⟩

/-- C4 (counterexample): the blocking client's `_reconnect` re-subscribes
nothing: with one consumer registered on `"q"`, the reconnect leaves the
registry in place but issues no `basic_consume` at all — the saved-consumer
replay (`_reconnect_consumer_callbacks`) is only ever invoked from the
event-driven client's channel-open path. -/
theorem C4_counterexample :
    consumerSQC.consumers = [("q", [7])] ∧
    (SimpleQueueClient._reconnect consumerSQC).queues = [] ∧
    (SimpleQueueClient._reconnect consumerSQC).consumers = [("q", [7])] ∧
    countConsumes 7 (SimpleQueueClient._reconnect consumerSQC).trace = 0 := by
  decide

/-- C4 (amended): on both clients a forced `_reconnect` empties the
declaration cache and leaves the consumer registry unchanged; but only the
event-driven client replays subscriptions — after its channel reopens and
every replay declare completes, exactly one `basic_consume` has been issued
per registry entry, in registry order, each carrying a tag built from the
next 16-bit random draw (so the new tag differs from the prior one exactly
when the draws differ); the blocking client's `_reconnect` issues no
`basic_consume` at all. -/
theorem C4_amended :
    (∀ s : SQC,
        (SimpleQueueClient._reconnect s).queues = [] ∧
        (SimpleQueueClient._reconnect s).consumers = s.consumers ∧
        (SimpleQueueClient._reconnect s).trace
          = s.trace ++ [.connect s.rabbitmq_heartbeat]) ∧
    (∀ t : TQC, t.on_open_cbs = [] → t.pendingDeclares = [] →
        (flattenConsumers t.consumers).length ≤ t.rng.length →
        (TornadoQueueClient._reconnect t).queues = [] ∧
        (TornadoQueueClient._reconnect t).consumers = t.consumers ∧
        (TornadoQueueClient.handleDeclareOks
            (TornadoQueueClient._on_channel_open (TornadoQueueClient._reconnect t))
            (flattenConsumers t.consumers).length).consumers = t.consumers ∧
        (TornadoQueueClient.handleDeclareOks
            (TornadoQueueClient._on_channel_open (TornadoQueueClient._reconnect t))
            (flattenConsumers t.consumers).length).trace
          = t.trace ++ [.connect t.rabbitmq_heartbeat]
              ++ declareOps (flattenConsumers t.consumers)
              ++ consumeOps (flattenConsumers t.consumers) t.rng) := by
  refine ⟨fun s => ⟨rfl, rfl, rfl⟩, fun t h1 h2 h3 => ?_⟩
  obtain ⟨hc, ht⟩ := TornadoQueueClient.replay_after_reconnect t h1 h2 h3
  exact ⟨rfl, rfl, hc, ht⟩

theorem C4_witness :
    readyTQC.on_open_cbs = [] ∧
    readyTQC.pendingDeclares = [] ∧
    (flattenConsumers readyTQC.consumers).length ≤ readyTQC.rng.length ∧
    (TornadoQueueClient.handleDeclareOks
        (TornadoQueueClient._on_channel_open (TornadoQueueClient._reconnect readyTQC))
        (flattenConsumers readyTQC.consumers).length).trace
      = readyTQC.trace ++ [.connect readyTQC.rabbitmq_heartbeat]
          ++ declareOps (flattenConsumers readyTQC.consumers)
          ++ consumeOps (flattenConsumers readyTQC.consumers) readyTQC.rng :=
  ⟨rfl, rfl, by decide,
   (C4_amended.2 readyTQC rfl rfl (by decide)).2.2.2⟩

/-- C5 (counterexample): on the event-driven client, two `ensure_queue`
calls for the same uncached name made back-to-back on one live connection —
before the asynchronous declare's completion callback has cached the name —
issue two `queue_declare` requests to the broker. -/
theorem C5_counterexample :
    "q" ∉ readyTQC.queues ∧
    countDeclares "q"
      (TornadoQueueClient.ensure_queue
        (TornadoQueueClient.ensure_queue readyTQC "q" (.user 0)) "q" (.user 1)).trace
      = 2 := by
  decide

/-- C5 (amended): on the blocking client the claim holds: while the
connection stays open, any number of `ensure_queue` calls for one name add
at most one declare to the trace and every call runs its callback inline.
On the event-driven client a name already in the cache is never
re-declared and the callback runs immediately, but calls made before the
declare completion has cached the name each issue their own declare. -/
theorem C5_amended (s : SQC) (q : String) (n : Nat)
    (hopen : s.connectionOpen = some true) :
    countDeclares q (SimpleQueueClient.ensureQueueCalls s q n).trace
      ≤ countDeclares q s.trace + 1 ∧
    (SimpleQueueClient.ensureQueueCalls s q n).userCbRuns = s.userCbRuns + n ∧
    (∀ (t : TQC) (cb : TCallback), q ∈ t.queues →
        TornadoQueueClient.ensure_queue t q cb = TornadoQueueClient.runTCallback t cb) := by
  have tornado : ∀ (t : TQC) (cb : TCallback), q ∈ t.queues →
      TornadoQueueClient.ensure_queue t q cb = TornadoQueueClient.runTCallback t cb := by
    intro t cb hmem
    simp [TornadoQueueClient.ensure_queue, hmem]
  have main : countDeclares q (SimpleQueueClient.ensureQueueCalls s q n).trace
        ≤ countDeclares q s.trace + 1 ∧
      (SimpleQueueClient.ensureQueueCalls s q n).userCbRuns = s.userCbRuns + n := by
    cases n with
    | zero =>
        refine ⟨?_, rfl⟩
        show countDeclares q s.trace ≤ countDeclares q s.trace + 1
        omega
    | succ n =>
      by_cases hm : q ∈ s.queues
      · rw [SimpleQueueClient.ensureQueueCalls_cached (n + 1) s q hopen hm]
        refine ⟨?_, rfl⟩
        show countDeclares q s.trace ≤ countDeclares q s.trace + 1
        omega
      · have hst : (SimpleQueueClient.ensure_queue s q SimpleQueueClient.cbCount).1
            = { s with trace := s.trace ++ [.queueDeclare q true]
                       queues := q :: s.queues
                       userCbRuns := s.userCbRuns + 1 } := by
          show (SimpleQueueClient.cbCount (SimpleQueueClient.ensureState s q)).1 = _
          rw [SimpleQueueClient.ensureState_uncached s q hopen hm]
          rfl
        have hrec := SimpleQueueClient.ensureQueueCalls_cached n
            { s with trace := s.trace ++ [.queueDeclare q true]
                     queues := q :: s.queues
                     userCbRuns := s.userCbRuns + 1 } q hopen
            (List.mem_cons_self q s.queues)
        rw [show SimpleQueueClient.ensureQueueCalls s q (n + 1)
              = SimpleQueueClient.ensureQueueCalls
                  (SimpleQueueClient.ensure_queue s q SimpleQueueClient.cbCount).1 q n
            from rfl, hst, hrec]
        constructor
        · show countDeclares q (s.trace ++ [.queueDeclare q true])
              ≤ countDeclares q s.trace + 1
          rw [countDeclares_append, countDeclares_declare_self]
        · show s.userCbRuns + 1 + n = s.userCbRuns + (n + 1)
          omega
  exact ⟨main.1, main.2, tornado⟩

theorem C5_witness :
    consumerSQC.connectionOpen = some true ∧
    countDeclares "q" (SimpleQueueClient.ensureQueueCalls consumerSQC "q" 2).trace
      ≤ countDeclares "q" consumerSQC.trace + 1 ∧
    (SimpleQueueClient.ensureQueueCalls consumerSQC "q" 2).userCbRuns
      = consumerSQC.userCbRuns + 2 :=
  ⟨rfl, (C5_amended consumerSQC "q" 2 rfl).1, (C5_amended consumerSQC "q" 2 rfl).2.1⟩

/-- When `failed_tries` stays within the bound, `retry_event` republishes
the updated event through `queue_json_publish` with the no-op processor. -/
theorem retry_event_republish_eq (u : Bool) (s : SQC) (q : String) (ev : Event)
    (h : ¬ ev.failed_tries.getD 0 + 1 > MAX_REQUEST_RETRIES) :
    retry_event u s q ev =
      ((queue_json_publish u true s q
          (ujson_dumps ⟨some (ev.failed_tries.getD 0 + 1)⟩)).1,
       ev.failed_tries.getD 0 + 1, .republished,
       (queue_json_publish u true s q
          (ujson_dumps ⟨some (ev.failed_tries.getD 0 + 1)⟩)).2.1) := by
  simp only [retry_event]
  rw [if_neg h]

/-- C8 (counterexample): with the broker enabled and both publish attempts
raising connection errors, the republish path of `retry_event` raises: the
error propagates out of `retry_event` instead of being ignored. -/
theorem C8_counterexample :
    (retry_event true pubFailSQC "q" ⟨none⟩).2.2.1 = .republished ∧
    (retry_event true pubFailSQC "q" ⟨none⟩).2.2.2 = some .connectionError := by
  decide

/-- C8 (amended): when `retry_event` decides to republish, it passes the
no-op `lambda x: None` as the fallback processor, so with the broker
disabled the event is dropped and `retry_event` returns normally; with the
broker enabled, whatever `json_publish` raises (after its own single
internal retry) propagates out of `retry_event` uncaught.  In either case
`retry_event` itself adds no further retry: at most the two publish
attempts of `json_publish` happen. -/
theorem C8_amended (u : Bool) (s : SQC) (q : String) (ev : Event)
    (h : ev.failed_tries.getD 0 + 1 ≤ MAX_REQUEST_RETRIES) :
    (retry_event u s q ev).2.2.1 = .republished ∧
    (u = false →
        (retry_event u s q ev).2.2.2 = none ∧ (retry_event u s q ev).1 = s) ∧
    (u = true →
        (retry_event u s q ev).2.2.2
          = (SimpleQueueClient.json_publish s q
              (ujson_dumps ⟨some (ev.failed_tries.getD 0 + 1)⟩)).2) ∧
    countPublishes (retry_event u s q ev).1.trace ≤ countPublishes s.trace + 2 := by
  rw [retry_event_republish_eq u s q ev (by omega)]
  cases u with
  | false =>
      refine ⟨rfl, fun _ => ⟨rfl, rfl⟩, ?_, ?_⟩
      · intro hc
        exact absurd hc (by decide)
      · show countPublishes s.trace ≤ countPublishes s.trace + 2
        omega
  | true =>
      refine ⟨rfl, ?_, fun _ => rfl, ?_⟩
      · intro hc
        exact absurd hc (by decide)
      · show countPublishes
            (SimpleQueueClient.json_publish s q
              (ujson_dumps ⟨some (ev.failed_tries.getD 0 + 1)⟩)).1.trace
          ≤ countPublishes s.trace + 2
        exact (SimpleQueueClient.json_publish_bound s q _).1

theorem C8_witness :
    (⟨none⟩ : Event).failed_tries.getD 0 + 1 ≤ MAX_REQUEST_RETRIES ∧
    (retry_event true pubFailSQC "q" ⟨none⟩).2.2.1 = .republished ∧
    countPublishes (retry_event true pubFailSQC "q" ⟨none⟩).1.trace
      ≤ countPublishes pubFailSQC.trace + 2 :=
  ⟨by decide, (C8_amended true pubFailSQC "q" ⟨none⟩ (by decide)).1,
   (C8_amended true pubFailSQC "q" ⟨none⟩ (by decide)).2.2.2⟩

/-- C10: the event-driven client's very first connection (opened inside the
base-class constructor) is issued with `heartbeat_interval = 0`, because
`rabbitmq_heartbeat` is only changed to `None` after `super().__init__()`
returns; a reconnect issued after construction uses `None`
(broker-negotiated heartbeats). -/
theorem C10_first_connection_heartbeat (rng : List Nat) :
    (TornadoQueueClient.init_state rng).trace = [.connect (some 0)] ∧
    (TornadoQueueClient.init_state rng).rabbitmq_heartbeat = none ∧
    (TornadoQueueClient._reconnect (TornadoQueueClient.init_state rng)).trace
      = [.connect (some 0), .connect none] :=
  ⟨rfl, rfl, rfl⟩

end ZulipQueue
